import Mathlib

/-!
Shallow embedding of the json-rs parser (src/lib.rs) in Lean 4.

Modelling conventions:
* The Rust buffer `Vec<char>` is a `List Char`; the mutable cursor `*pos`
  is passed and returned explicitly.
* The Rust enum `Type` is `JVal`.  Its `Number(f64)` payload is modelled as
  the exact rational value denoted by the accepted decimal text: the f64
  stored by the code is a fixed rounding function of this rational, so two
  texts that denote the same rational yield the same f64.
* `JsonError` has the single variant `UnexpectToken`; it is folded into the
  outcome type below as `err` (carrying the cursor position the Rust code
  leaves behind, since the position is mutated through a `&mut` reference
  and remains visible to the caller on the error path).
* A Rust panic (an out-of-bounds index `chars[i]`, or `.unwrap()` applied
  to an `Err`) is the explicit outcome `panic`.
* The mutually recursive parsers are given a fuel parameter; `more` means
  the fuel ran out and never occurs once the fuel exceeds the number of
  loop iterations and recursive calls, which is bounded by the input size.
* The Rust `HashMap<String, Type>` is modelled as an association list with
  unique keys; `insertKV` overwrites the binding of an existing key in
  place or appends a new one, which is `HashMap::insert` as observed
  through lookups.
-/

/-- The value tree, Rust enum `Type` in src/lib.rs lines 3-11 (the Rust
name `Type` is reserved in Lean). -/
inductive JVal : Type where
  | null : JVal
  | bool (b : Bool) : JVal
  | num (q : ℚ) : JVal
  | str (s : List Char) : JVal
  | arr (xs : List JVal) : JVal
  | obj (m : List (List Char × JVal)) : JVal

instance : Inhabited JVal := ⟨.null⟩

/-- Outcome of an inner parsing function: a panic, fuel exhaustion (an
artifact of the embedding), `Err(JsonError::UnexpectToken)` with the final
cursor position, or `Ok(value)` with the final cursor position. -/
inductive POut : Type where
  | panic : POut
  | more : POut
  | err (pos : Nat) : POut
  | ok (v : JVal) (pos : Nat) : POut

/-- Outcome of the public `parse`: same as `POut` but the cursor is gone. -/
inductive PRes : Type where
  | panic : PRes
  | more : PRes
  | err : PRes
  | ok (v : JVal) : PRes

/-- Rust `char::is_ascii_whitespace`: space, horizontal tab, line feed,
form feed, carriage return. -/
def isAsciiWhitespace (c : Char) : Bool :=
  c = ' ' || c = '\t' || c = '\n' || c = '\x0C' || c = '\r'

/-- The loop of `skip_whitespace`, made structural on the step count
`chars.length - pos`: the loop increments `pos` each iteration, so it
runs at most that many times, and when the count is `0` the guard
`pos < chars.length` is false anyway. -/
def sw_go (chars : List Char) : Nat → Nat → Nat
  | 0, p => p
  | f + 1, p =>
    if h : p < chars.length then
      if isAsciiWhitespace chars[p] then sw_go chars f (p + 1) else p
    else p

/-- src/lib.rs lines 18-22: advance past ASCII whitespace; never fails. -/
def skip_whitespace (chars : List Char) (pos : Nat) : Nat :=
  sw_go chars (chars.length - pos) pos

/-- The `for` loop of `find_str` (src/lib.rs lines 27-31): compare the
upcoming characters with `s`.  Callers establish `pos + s.length ≤
chars.length`, so the `getD` default is never read. -/
def str_match (chars : List Char) (pos : Nat) : List Char → Bool
  | [] => true
  | c :: cs => if chars.getD pos ' ' = c then str_match chars (pos + 1) cs else false

/-- src/lib.rs lines 24-36: skip whitespace, then test (without consuming)
whether the upcoming characters equal `s`.  Returns the flag together with
the position after the whitespace skip, because the skip mutates the shared
cursor even when the match fails. -/
def find_str (chars : List Char) (pos : Nat) (s : List Char) : Bool × Nat :=
  let p := skip_whitespace chars pos
  if p + s.length ≤ chars.length then (str_match chars p s, p) else (false, p)

/-- ASCII digit test, the Rust pattern `'0'..='9'`. -/
def isDigitCh (c : Char) : Bool := '0' ≤ c && c ≤ '9'

/-- Numeric value of a digit string, most significant first. -/
def digitsVal (ds : List Char) : Nat :=
  ds.foldl (fun a c => 10 * a + (c.toNat - '0'.toNat)) 0

/-- Ten to a natural power. -/
def tenPow (n : Nat) : Nat := 10 ^ n

/-- Ten to an integer power, as a rational. -/
def pow10 : ℤ → ℚ
  | Int.ofNat n => (tenPow n : ℚ)
  | Int.negSucc n => (1 : ℚ) / (tenPow (n + 1) : ℚ)

/-- The optional exponent suffix of Rust's `f64` grammar:
`('e'|'E') ('+'|'-')? digit+` and nothing after it.  `mant` is the value
of the mantissa already read. -/
def rf64_exp (mant : ℚ) : List Char → Option ℚ
  | [] => some mant
  | c :: rest =>
    if c = 'e' ∨ c = 'E' then
      let sr : ℤ × List Char :=
        match rest with
        | '+' :: r => (1, r)
        | '-' :: r => (-1, r)
        | r => (1, r)
      let ds := sr.2.takeWhile isDigitCh
      if ds = [] ∨ sr.2.dropWhile isDigitCh ≠ [] then none
      else some (mant * pow10 (sr.1 * (digitsVal ds : ℤ)))
    else none

/-- Rust `str::parse::<f64>` (`FromStr for f64`), success and exact value.
The documented grammar is `sign? (inf|infinity|nan|number)` with
`number ::= (digit+ | digit+ '.' digit* | digit* '.' digit+) exp?` and
`exp ::= ('e'|'E') sign? digit+`.  The `inf`/`infinity`/`nan` forms are
omitted here: `parse_number` only ever accumulates signs, digits, dots and
exponent markers, so those alphabetic forms are unreachable from this
code.  The result is the exact rational denoted by the text; the f64
returned by Rust is a fixed rounding of it. -/
def rust_parse_f64 (s : List Char) : Option ℚ :=
  let sg : ℚ × List Char :=
    match s with
    | '+' :: r => (1, r)
    | '-' :: r => (-1, r)
    | r => (1, r)
  let ip := sg.2.takeWhile isDigitCh
  let s2 := sg.2.dropWhile isDigitCh
  match s2 with
  | '.' :: r =>
    let fp := r.takeWhile isDigitCh
    let s3 := r.dropWhile isDigitCh
    if ip = [] ∧ fp = [] then none
    else rf64_exp (sg.1 * ((digitsVal ip : ℚ) + (digitsVal fp : ℚ) / (tenPow fp.length : ℚ))) s3
  | _ =>
    if ip = [] then none
    else rf64_exp (sg.1 * (digitsVal ip : ℚ)) s2

/-- `HashMap::insert` observed through lookups: overwrite the binding of an
existing key in place, or append a fresh binding (src/lib.rs line 52). -/
def insertKV : List (List Char × JVal) → List Char → JVal → List (List Char × JVal)
  | [], k, v => [(k, v)]
  | (k0, v0) :: rest, k, v =>
    if k0 = k then (k, v) :: rest else (k0, v0) :: insertKV rest k v

/-- `HashMap` lookup on the association-list model. -/
def lookupKV : List (List Char × JVal) → List Char → Option JVal
  | [], _ => none
  | (k0, v0) :: rest, k => if k0 = k then some v0 else lookupKV rest k

/-- src/lib.rs lines 69-92: the string body parser, entered just after the
opening quote, with `acc` the `result` string built so far.  The escape
branch reads `chars[*pos + 1]` without a bounds check (panic when the
buffer ends in a backslash); falling off the loop is `Err`.  The fuel
argument only bounds the loop for the embedding; each iteration consumes
at least one character, so any fuel above `chars.length` is enough. -/
def parse_string (chars : List Char) : Nat → Nat → List Char → POut
  | 0, _, _ => .more
  | fuel + 1, pos, acc =>
    if h : pos < chars.length then
      match chars[pos] with
      | '"' => .ok (.str acc) (pos + 1)
      | '\\' =>
        if h2 : pos + 1 < chars.length then
          parse_string chars fuel (pos + 2)
            (acc ++ [if chars[pos + 1] = 'n' then '\n' else chars[pos + 1]])
        else .panic
      | c => parse_string chars fuel (pos + 1) (acc ++ [c])
    else .err pos

/-- The final line of `parse_number` (src/lib.rs line 173):
`Ok(Type::Number(number_string.parse().unwrap()))` — a failing conversion
is an `unwrap` panic. -/
def pn_finish (ns : List Char) (pos : Nat) : POut :=
  match rust_parse_f64 ns with
  | some q => .ok (.num q) pos
  | none => .panic

/-- The `while` loop of `parse_number` (src/lib.rs lines 137-171), with
`ns` the accumulated `number_string` and `fd`/`fe` the `found_decimal` /
`found_exponent` flags.  After consuming `e`/`E` the code reads
`chars[*pos]` without a bounds check (line 159), a panic at end of
buffer.  As with `parse_string`, the fuel is an embedding artifact. -/
def pn_loop (chars : List Char) : Nat → Nat → List Char → Bool → Bool → POut
  | 0, _, _, _, _ => .more
  | fuel + 1, pos, ns, fd, fe =>
    if h : pos < chars.length then
      if isDigitCh chars[pos] then pn_loop chars fuel (pos + 1) (ns ++ [chars[pos]]) fd fe
      else if chars[pos] = '.' then
        if fd || fe then .err pos
        else pn_loop chars fuel (pos + 1) (ns ++ [chars[pos]]) true fe
      else if chars[pos] = 'e' ∨ chars[pos] = 'E' then
        if fe then .err pos
        else
          if h2 : pos + 1 < chars.length then
            if chars[pos + 1] = '-' ∨ chars[pos + 1] = '+' then
              pn_loop chars fuel (pos + 2) (ns ++ [chars[pos], chars[pos + 1]]) fd true
            else pn_loop chars fuel (pos + 1) (ns ++ [chars[pos]]) fd true
          else .panic
      else pn_finish ns pos
    else pn_finish ns pos

/-- src/lib.rs lines 116-174: the number parser.  Both leading reads
`chars[*pos]` (lines 121 and 126) are unchecked, so a lone `-` at the end
of the buffer panics.  When the first digit is `0` the code consumes it
and requires a following `.` via `find_str`, which skips whitespace and
leaves the mutated position behind even on failure. -/
def parse_number (fuel : Nat) (chars : List Char) (pos : Nat) : POut :=
  if h : pos < chars.length then
    let st : List Char × Nat :=
      if chars[pos] = '-' then (['-'], pos + 1) else ([], pos)
    if h2 : st.2 < chars.length then
      if chars[st.2] = '0' then
        match find_str chars (st.2 + 1) ['.'] with
        | (true, p) => pn_loop chars fuel (p + 1) (st.1 ++ ['0', '.']) true false
        | (false, p) => .err p
      else pn_loop chars fuel st.2 st.1 false false
    else .panic
  else .panic

mutual

/-- src/lib.rs lines 176-218: the dispatcher.  Skips whitespace then reads
`chars[*pos]` without a bounds check — a panic on empty or all-whitespace
input. -/
def _parse (fuel : Nat) (chars : List Char) (pos : Nat) : POut :=
  match fuel with
  | 0 => .more
  | fuel + 1 =>
    let pos := skip_whitespace chars pos
    if h : pos < chars.length then
      match chars[pos] with
      | '{' => parse_object fuel chars (pos + 1) []
      | '[' => parse_array fuel chars (pos + 1) []
      | '"' => parse_string chars fuel (pos + 1) []
      | 't' =>
        match find_str chars pos ['t', 'r', 'u', 'e'] with
        | (true, p) => .ok (.bool true) (p + 4)
        | (false, p) => .err p
      | 'f' =>
        match find_str chars pos ['f', 'a', 'l', 's', 'e'] with
        | (true, p) => .ok (.bool false) (p + 5)
        | (false, p) => .err p
      | 'n' =>
        match find_str chars pos ['n', 'u', 'l', 'l'] with
        | (true, p) => .ok .null (p + 4)
        | (false, p) => .err p
      | c => if isDigitCh c || c = '-' then parse_number fuel chars pos else .err pos
    else .panic

/-- src/lib.rs lines 38-67: the object parser, entered just after `{` with
`hash` the accumulated map.  The loop condition checks `*pos < len` before
skipping whitespace, but the reads at lines 43 and 54 are unchecked after a
skip — a panic when only whitespace remains.  Inner `_parse` results are
`.unwrap()`ed, so an inner `Err` is a panic; `break` paths end in `Err`. -/
def parse_object (fuel : Nat) (chars : List Char) (pos : Nat)
    (hash : List (List Char × JVal)) : POut :=
  match fuel with
  | 0 => .more
  | fuel + 1 =>
    if pos < chars.length then
      let pos := skip_whitespace chars pos
      if h : pos < chars.length then
        if chars[pos] = '}' then .ok (.obj hash) (pos + 1)
        else
          match _parse fuel chars pos with
          | .more => .more
          | .panic => .panic
          | .err _ => .panic
          | .ok (.str key) kpos =>
            match find_str chars kpos [':'] with
            | (true, p) =>
              match _parse fuel chars (p + 1) with
              | .more => .more
              | .panic => .panic
              | .err _ => .panic
              | .ok value vpos =>
                let hash := insertKV hash key value
                let wpos := skip_whitespace chars vpos
                if h2 : wpos < chars.length then
                  match chars[wpos] with
                  | ',' => parse_object fuel chars (wpos + 1) hash
                  | '}' => parse_object fuel chars wpos hash
                  | _ => .err wpos
                else .panic
            | (false, p) => .err p
          | .ok _ vpos => .err vpos
      else .panic
    else .err pos

/-- src/lib.rs lines 94-114: the array parser, entered just after `[`.
The read at line 98 is unchecked after the whitespace skip; a comma with a
non-empty accumulator is simply consumed (the next iteration may then see
`]`, so a trailing comma is accepted); a leading comma breaks to `Err`;
inner `_parse` results are `.unwrap()`ed. -/
def parse_array (fuel : Nat) (chars : List Char) (pos : Nat)
    (result : List JVal) : POut :=
  match fuel with
  | 0 => .more
  | fuel + 1 =>
    if pos < chars.length then
      let pos := skip_whitespace chars pos
      if h : pos < chars.length then
        match chars[pos] with
        | ',' =>
          if result.length > 0 then parse_array fuel chars (pos + 1) result
          else .err pos
        | ']' => .ok (.arr result) (pos + 1)
        | _ =>
          match _parse fuel chars pos with
          | .more => .more
          | .panic => .panic
          | .err _ => .panic
          | .ok v vpos => parse_array fuel chars vpos (result ++ [v])
      else .panic
    else .err pos

end

/-- src/lib.rs lines 220-230: the public entry point.  Runs the dispatcher
at position 0, skips trailing whitespace, and returns the dispatcher's
result only when the cursor reached the end of the buffer; otherwise
`Err`.  When the dispatcher itself returned `Err` both branches of the
final `if` yield `Err`. -/
def parse (fuel : Nat) (chars : List Char) : PRes :=
  match _parse fuel chars 0 with
  | .panic => .panic
  | .more => .more
  | .err _ => .err
  | .ok v p => if skip_whitespace chars p = chars.length then .ok v else .err

/-- `parse` applied to a string literal, with fuel that exceeds the number
of recursive calls any run on this input can make (each unit of fuel
spent either consumes a character or is one of the bounded bookkeeping
iterations). -/
def jparse (s : String) : PRes := parse (2 * s.length + 2) s.data

/-- Keys after an insert: unchanged when the key was already bound,
otherwise the key is appended. -/
theorem insertKV_keys_eq (m : List (List Char × JVal)) (k : List Char) (v : JVal) :
    (insertKV m k v).map Prod.fst =
      if k ∈ m.map Prod.fst then m.map Prod.fst else m.map Prod.fst ++ [k] := by
  induction m with
  | nil => simp [insertKV]
  | cons hd tl ih =>
    obtain ⟨k0, v0⟩ := hd
    by_cases h : k0 = k
    · simp [insertKV, h]
    · by_cases hk : k ∈ tl.map Prod.fst
      · simp [insertKV, h, hk, ih, Ne.symm h]
      · simp [insertKV, h, hk, ih, Ne.symm h]

/-- C1: the claim states that for every input (including empty and
truncated input) `parse` returns a result and bounds-checks every
character access.  The code violates it: on the empty input the
dispatcher reads `chars[0]` of an empty buffer (src/lib.rs line 178), and
on the input consisting of a single minus sign the number parser reads
`chars[1]` past the end of the buffer (line 126); both runs panic instead
of returning a result. -/
theorem C1_panic_on_empty_and_lone_minus :
    jparse "" = PRes.panic ∧ jparse "-" = PRes.panic := ⟨rfl, rfl⟩

/-- C2: the claim states that whenever `parse_number` reaches its final
conversion the conversion succeeds.  The code violates it: on the input
made of `1`, `e` and a space, the grammar loop accepts the accumulated
text `1e` (it never requires a digit after the exponent marker), Rust's
f64 conversion rejects `1e`, and the final `unwrap` panics. -/
theorem C2_unwrap_panics_on_exponent_without_digits :
    rust_parse_f64 ['1', 'e'] = none
    ∧ parse_number 10 ['1', 'e', ' '] 0 = POut.panic
    ∧ jparse "1e " = PRes.panic := ⟨rfl, rfl, rfl⟩

/-- C3 counterexample: the claim states that a comma followed directly by
the closing bracket makes parsing fail, but the code parses the array
text with the trailing comma successfully: after consuming the comma the
loop simply continues and accepts the closing bracket on its next
iteration, so the result is the one-element array, not the error. -/
theorem C3_trailing_comma_counterexample :
    jparse "[1,]" = PRes.ok (.arr [.num 1])
    ∧ PRes.ok (JVal.arr [JVal.num 1]) ≠ PRes.err :=
  ⟨by with_unfolding_all rfl, fun h => PRes.noConfusion h⟩

/-- C3 amended: a comma in an array is consumed only when at least one
element was already parsed (a leading comma is the error), and after a
comma the parser accepts either another value or — contrary to the
original claim — the closing bracket, so a trailing comma is accepted and
the accumulated elements are returned. -/
theorem C3_amended_array_commas :
    jparse "[1,]" = PRes.ok (.arr [.num 1])
    ∧ jparse "[1, ]" = PRes.ok (.arr [.num 1])
    ∧ jparse "[,]" = PRes.err
    ∧ jparse "[1,2]" = PRes.ok (.arr [.num 1, .num 2]) :=
  ⟨by with_unfolding_all rfl, by with_unfolding_all rfl, rfl,
    by with_unfolding_all rfl⟩

/-- C4 counterexample: the claim states that a leading digit `0` must be
immediately followed by a decimal point.  In the code the lookahead for
the point is `find_str`, which first skips whitespace, so in the input
where `0` is followed by a space and then `.5` the zero is not
immediately followed by a point and yet the parse succeeds with the
value one half rather than returning the error. -/
theorem C4_zero_space_dot_counterexample :
    jparse "0 .5" = PRes.ok (.num (1 / 2))
    ∧ PRes.ok (JVal.num (1 / 2)) ≠ PRes.err :=
  ⟨by with_unfolding_all rfl, fun h => PRes.noConfusion h⟩

/-- C4 amended: if the first digit of the integer part is `0`, it must be
followed by a decimal point possibly separated by whitespace (the
lookahead skips whitespace): a bare `0` and a multi-digit `01` return the
error, while `0.5` and also `0 .5` are accepted with value one half. -/
theorem C4_amended_leading_zero :
    jparse "0" = PRes.err
    ∧ jparse "01" = PRes.err
    ∧ jparse "0.5" = PRes.ok (.num (1 / 2))
    ∧ jparse "0 .5" = PRes.ok (.num (1 / 2)) :=
  ⟨rfl, rfl, by with_unfolding_all rfl, by with_unfolding_all rfl⟩

/-- C5: `parse` succeeds only when the dispatcher succeeded and the
position, after skipping trailing whitespace, reached the end of the
buffer; whenever the dispatcher returns a value but non-whitespace
content remains unconsumed (so the whitespace skip stops short of the
end), `parse` returns the error, as in the instance of a `null` value
followed by a stray character. -/
theorem C5_trailing_content_rejected :
    (∀ fuel chars v, parse fuel chars = PRes.ok v →
      ∃ p, _parse fuel chars 0 = POut.ok v p ∧ skip_whitespace chars p = chars.length)
    ∧ (∀ fuel chars v p, _parse fuel chars 0 = POut.ok v p →
        skip_whitespace chars p ≠ chars.length → parse fuel chars = PRes.err)
    ∧ jparse "null x" = PRes.err := by
  refine ⟨?_, ?_, rfl⟩
  · intro fuel chars v h
    unfold parse at h
    split at h
    · exact absurd h (by simp)
    · exact absurd h (by simp)
    · exact absurd h (by simp)
    · next w p heq =>
      split at h
      · next hc =>
        injection h with h2
        subst h2
        exact ⟨p, heq, hc⟩
      · exact absurd h (by simp)
  · intro fuel chars v p h hne
    unfold parse
    rw [h]
    exact if_neg hne

/-- C5 witness: on the buffer of the text `null x` the dispatcher returns
the null value at position 4, the whitespace skip stops at the stray
character, and `parse` returns the error. -/
theorem C5_trailing_content_rejected_witness :
    parse 14 (String.data "null x") = PRes.err :=
  C5_trailing_content_rejected.2.1 14 (String.data "null x") JVal.null 4 (by rfl)
    (by decide)

/-- C6: the exact number texts map to the exact values, with the f64
payload modelled as the exact rational the text denotes (the f64 the code
stores is a fixed rounding of this rational, identical for both sides of
each test): 1, -1, -11/10, 1000, 1000, 1/1000, -1/1000; and the texts
`01` and `1.1.1` return the error. -/
theorem C6_number_grammar_values :
    jparse "1" = PRes.ok (.num 1)
    ∧ jparse "-1" = PRes.ok (.num (-1))
    ∧ jparse "-1.1" = PRes.ok (.num (-(11 / 10)))
    ∧ jparse "1e3" = PRes.ok (.num 1000)
    ∧ jparse "1e+3" = PRes.ok (.num 1000)
    ∧ jparse "1e-3" = PRes.ok (.num (1 / 1000))
    ∧ jparse "-1e-3" = PRes.ok (.num (-(1 / 1000)))
    ∧ jparse "01" = PRes.err
    ∧ jparse "1.1.1" = PRes.err :=
  ⟨by with_unfolding_all rfl, by with_unfolding_all rfl, by with_unfolding_all rfl,
    by with_unfolding_all rfl, by with_unfolding_all rfl, by with_unfolding_all rfl,
    by with_unfolding_all rfl, rfl, rfl⟩

/-- C7: the escape branches behave as claimed — a backslash-n pair
decodes to a newline and a backslash before any other character decodes
to that character, both consuming two characters (the two direct
`parse_string` runs end at position 3 after the escape pair and the
closing quote) — but the claim that a buffer ending before the closing
quote always yields the error is violated by the code: a buffer ending
in a backslash makes `parse_string` read `chars[*pos + 1]` past the end
(src/lib.rs line 79) and panic, while an unterminated string not ending
in a backslash does yield the error. -/
theorem C7_escape_handling_and_unterminated :
    parse_string ['\\', 'n', '"'] 5 0 [] = POut.ok (.str ['\n']) 3
    ∧ parse_string ['\\', 'q', '"'] 5 0 [] = POut.ok (.str ['q']) 3
    ∧ jparse "\"a\\nb\"" = PRes.ok (.str ['a', '\n', 'b'])
    ∧ jparse "\"a\\qb\"" = PRes.ok (.str ['a', 'q', 'b'])
    ∧ jparse "\"ab" = PRes.err
    ∧ jparse "\"\\" = PRes.panic :=
  ⟨rfl, rfl, rfl, rfl, rfl, rfl⟩

/-- C8: the map insert is an overwrite — looking up the inserted key
always returns the new value, and inserting never duplicates a key (keys
stay unique) — and an object text repeating a key parses to the object
holding the value of the last occurrence, as in the two duplicate-key
inputs. -/
theorem C8_duplicate_keys_last_wins :
    (∀ m k v, lookupKV (insertKV m k v) k = some v)
    ∧ (∀ m k v, (m.map Prod.fst).Nodup → ((insertKV m k v).map Prod.fst).Nodup)
    ∧ jparse "\x7b\"a\":1,\"a\":2\x7d" = PRes.ok (.obj [(['a'], .num 2)])
    ∧ jparse "\x7b\"a\":1,\"b\":2,\"a\":3\x7d"
        = PRes.ok (.obj [(['a'], .num 3), (['b'], .num 2)]) := by
  refine ⟨?_, ?_, by with_unfolding_all rfl, by with_unfolding_all rfl⟩
  · intro m k v
    induction m with
    | nil => simp [insertKV, lookupKV]
    | cons hd tl ih =>
      obtain ⟨k0, v0⟩ := hd
      by_cases h : k0 = k
      · simp [insertKV, h, lookupKV]
      · simp [insertKV, h, lookupKV, ih]
  · intro m k v hnd
    rw [insertKV_keys_eq]
    by_cases hk : k ∈ m.map Prod.fst
    · rwa [if_pos hk]
    · rw [if_neg hk]
      simp [List.nodup_append, hnd, hk]

/-- C8 witness: inserting the key `a` into a one-binding map keyed by `a`
keeps the key list duplicate-free. -/
theorem C8_duplicate_keys_last_wins_witness :
    ((insertKV [(['a'], JVal.num 1)] ['a'] (JVal.num 2)).map Prod.fst).Nodup :=
  C8_duplicate_keys_last_wins.2.1 [(['a'], JVal.num 1)] ['a'] (JVal.num 2) (by decide)

/-- C9: the claim states that inserting runs of ASCII whitespace around
structural tokens never changes the result of `parse`.  The code violates
it through its unchecked indexing: on the one-character input `{` the
object loop exits and `parse` returns the error, but after inserting a
single space after that token the loop body skips the whitespace and then
reads `chars[*pos]` at the end of the buffer (src/lib.rs line 43), a
panic — the two outcomes differ. -/
theorem C9_whitespace_insertion_changes_outcome :
    jparse "\x7b" = PRes.err ∧ jparse "\x7b " = PRes.panic := ⟨rfl, rfl⟩

/-- C10: a number text whose fractional part has a decimal point with no
digits after it is accepted: the grammar loop never requires a digit
after a consumed point, the accumulated text ending in the point is
accepted by the f64 conversion, and the parse returns the number one. -/
theorem C10_trailing_dot_number_accepted :
    jparse "1." = PRes.ok (.num 1) := by with_unfolding_all rfl
